import Mathlib

/-!
Verification of the NBA play-type statistics backend
(`flask_backend.py` and `flask_backend2.py`).

The Python source is shallowly embedded: the module-level cache globals
become an explicit `CacheState` record threaded through the functions,
`time.time()` becomes an explicit integer parameter, the scraping
helpers imported from `playerstyles1.py` (which is not part of the two
backend files) are abstracted as function parameters, and Flask response
values are modelled by an explicit sum of a bare response versus a
`(response, code)` tuple, so that the dynamic behaviour of subscripting
each kind can be stated faithfully.
-/

namespace NBA

/-! ## String utilities (Python substring containment) -/

/-- Does `hay` start with the segment `needle`?  Mirrors the prefix part
of the Python `in` operator on strings, working on character lists. -/
def startsSeg : List Char → List Char → Bool
  | [], _ => true
  | _ :: _, [] => false
  | a :: as, b :: bs => a == b && startsSeg as bs

/-- Does `needle` occur contiguously anywhere in `hay`?  This is the
Python expression `needle in hay` on strings. -/
def hasSeg (needle : List Char) : List Char → Bool
  | [] => startsSeg needle []
  | c :: tl => startsSeg needle (c :: tl) || hasSeg needle tl

/-- Python `sub in hay` for strings. -/
def strContains (hay sub : String) : Bool :=
  hasSeg sub.data hay.data

/-- ASCII lower-casing of one character (Python `str.lower` restricted to
the ASCII names handled here). -/
def lowerChar (c : Char) : Char :=
  if 65 ≤ c.toNat && c.toNat ≤ 90 then Char.ofNat (c.toNat + 32) else c

/-- ASCII lower-casing of a string. -/
def strLower (s : String) : String :=
  String.mk (s.data.map lowerChar)

def spaceChar : Char := ' '

theorem startsSeg_iff (n h : List Char) :
    startsSeg n h = true ↔ ∃ r, h = n ++ r := by
  induction n generalizing h with
  | nil => simp [startsSeg]
  | cons a as ih =>
    cases h with
    | nil => simp [startsSeg]
    | cons b bs =>
      simp only [startsSeg, Bool.and_eq_true, beq_iff_eq, ih, List.cons_append,
        List.cons.injEq]
      constructor
      · rintro ⟨hab, r, hr⟩
        exact ⟨r, hab.symm, hr⟩
      · rintro ⟨r, hba, hr⟩
        exact ⟨hba.symm, r, hr⟩

theorem hasSeg_iff (n h : List Char) :
    hasSeg n h = true ↔ ∃ l r, h = l ++ n ++ r := by
  induction h with
  | nil =>
    simp only [hasSeg, startsSeg_iff]
    constructor
    · rintro ⟨r, hr⟩
      exact ⟨[], r, by simpa using hr⟩
    · rintro ⟨l, r, hr⟩
      have hl : l = [] := by
        cases l with
        | nil => rfl
        | cons x xs => simp at hr
      subst hl
      exact ⟨r, by simpa using hr⟩
  | cons c tl ih =>
    simp only [hasSeg, Bool.or_eq_true, startsSeg_iff, ih]
    constructor
    · rintro (⟨r, hr⟩ | ⟨l, r, hr⟩)
      · exact ⟨[], r, by simpa using hr⟩
      · exact ⟨c :: l, r, by simp [hr]⟩
    · rintro ⟨l, r, hr⟩
      cases l with
      | nil => exact Or.inl ⟨r, by simpa using hr⟩
      | cons x xs =>
        simp only [List.cons_append, List.cons.injEq] at hr
        exact Or.inr ⟨xs, r, by simp [hr.2]⟩

/-- Characterisation of `strContains` as contiguous-substring occurrence. -/
theorem strContains_iff (hay sub : String) :
    strContains hay sub = true ↔ ∃ l r, hay.data = l ++ sub.data ++ r :=
  hasSeg_iff sub.data hay.data

/-! ## Data model: play-type tables and the cache

Offensive tables carry an explicit column list because `get_player`
checks for the PLAYER / PTS / TEAM columns before reading rows.
Numeric cell values are modelled as rationals. -/

def colPLAYER : String := "PLAYER"
def colPTS : String := "PTS"
def colTEAM : String := "TEAM"

structure OffRow where
  player : String
  team : String
  pts : Rat
deriving DecidableEq

structure OffTable where
  columns : List String
  rows : List OffRow
deriving DecidableEq

structure DefRow where
  team : String
  rank : Int
  ppp : Rat
deriving DecidableEq

structure DefTable where
  rows : List DefRow
deriving DecidableEq

/-- The module-level mutable state of the backend: `offensive_cache`,
`defensive_cache` and `cache_timestamp` (None before the first refresh). -/
structure CacheState where
  offCache : List (String × OffTable)
  defCache : List (String × DefTable)
  ts : Option Int
deriving DecidableEq

def urlPnr : String := "https://www.nba.com/stats/players/ball-handler?dir=D&sort=PTS"
def urlIso : String := "https://www.nba.com/stats/players/isolation"
def urlTrans : String := "https://www.nba.com/stats/players/transition"
def urlRoll : String := "https://www.nba.com/stats/players/roll-man"
def urlPost : String := "https://www.nba.com/stats/players/playtype-post-up"
def urlSpot : String := "https://www.nba.com/stats/players/spot-up"
def urlCut : String := "https://www.nba.com/stats/players/cut"
def urlOffScreen : String := "https://www.nba.com/stats/players/off-screen"
def urlPutbacks : String := "https://www.nba.com/stats/players/putbacks"
def urlHandOff : String := "https://www.nba.com/stats/players/hand-off"

def durlIso : String := "https://www.nba.com/stats/teams/isolation?TypeGrouping=defensive&dir=A&sort=PPP"
def durlTrans : String := "https://www.nba.com/stats/teams/transition?TypeGrouping=defensive&dir=A&sort=PPP"
def durlPnr : String := "https://www.nba.com/stats/teams/ball-handler?TypeGrouping=defensive&dir=A&sort=PPP"
def durlRoll : String := "https://www.nba.com/stats/teams/roll-man?TypeGrouping=defensive&dir=A&sort=PPP"
def durlPost : String := "https://www.nba.com/stats/teams/playtype-post-up?TypeGrouping=defensive&dir=A&sort=PPP"
def durlSpot : String := "https://www.nba.com/stats/teams/spot-up?TypeGrouping=defensive&dir=A&sort=PPP"
def durlHandOff : String := "https://www.nba.com/stats/teams/hand-off?TypeGrouping=defensive&dir=A&sort=PPP"
def durlOffScreen : String := "https://www.nba.com/stats/teams/off-screen?TypeGrouping=defensive&dir=A&sort=PPP"
def durlPutbacks : String := "https://www.nba.com/stats/teams/putbacks?TypeGrouping=defensive&dir=A&sort=PPP"

def ptPnr : String := "Pick-and-Roll"
def ptIso : String := "Isolation"
def ptTrans : String := "Transition"
def ptRoll : String := "Roll Man"
def ptPost : String := "Post-Up"
def ptSpot : String := "Spot-Up"
def ptCut : String := "Cut"
def ptOffScreen : String := "Off Screen"
def ptPutbacks : String := "Putbacks"
def ptHandOff : String := "Hand-Off"

/-- The `offensive_play_types` dict, in insertion order. -/
def offensive_play_types : List (String × String) :=
  [(ptPnr, urlPnr), (ptIso, urlIso), (ptTrans, urlTrans), (ptRoll, urlRoll),
   (ptPost, urlPost), (ptSpot, urlSpot), (ptCut, urlCut),
   (ptOffScreen, urlOffScreen), (ptPutbacks, urlPutbacks), (ptHandOff, urlHandOff)]

/-- The `defensive_play_types` dict, in insertion order. -/
def defensive_play_types : List (String × String) :=
  [(ptIso, durlIso), (ptTrans, durlTrans), (ptPnr, durlPnr), (ptRoll, durlRoll),
   (ptPost, durlPost), (ptSpot, durlSpot), (ptHandOff, durlHandOff),
   (ptOffScreen, durlOffScreen), (ptPutbacks, durlPutbacks)]

/-! ## Cache refresher (`refresh_cache`, `ensure_cache`)

The scraping helpers `get_offensive_stats` / `get_defensive_stats` are
external collaborators; they are passed in as fetch functions of type
url to play-type to optional table, returning `none` where the Python
helper returns `None`. -/

/-- The loop `for play_type, url in d.items(): stats = fetch(url, play_type);
if stats is not None: temp[play_type] = stats`, building the temp dict. -/
def buildSnapshot (fetch : String → String → Option α) :
    List (String × String) → List (String × α)
  | [] => []
  | (pt, url) :: rest =>
    match fetch url pt with
    | some tb => (pt, tb) :: buildSnapshot fetch rest
    | none => buildSnapshot fetch rest

/-- `refresh_cache`: rebuild both snapshots from the fetchers and stamp
the timestamp with the completion instant `now`. -/
def refresh_cache (fetchOff : String → String → Option OffTable)
    (fetchDef : String → String → Option DefTable) (now : Int) : CacheState :=
  { offCache := buildSnapshot fetchOff offensive_play_types
    defCache := buildSnapshot fetchDef defensive_play_types
    ts := some now }

/-- Python truthiness of `cache_timestamp`: `not cache_timestamp` is true
when the value is `None` and also when it is the number `0`. -/
def pyFalsyTs : Option Int → Bool
  | none => true
  | some t => t == 0

/-- The guard of `ensure_cache`:
`not cache_timestamp or (time.time() - cache_timestamp) > CACHE_DURATION`
(the subtraction arm is only evaluated when a timestamp is present,
matching the short-circuit `or`). -/
def needsRefresh (ttl now : Int) (ts : Option Int) : Bool :=
  pyFalsyTs ts ||
    (match ts with
     | none => false
     | some t => decide (now - t > ttl))

/-- `ensure_cache`, returning the resulting state together with the
number of times `refresh_cache` ran (0 or 1).  `ttl` is the
`CACHE_DURATION` constant (3600 in the source) and `now` the clock. -/
def ensure_cache (ttl now : Int) (fetchOff : String → String → Option OffTable)
    (fetchDef : String → String → Option DefTable) (st : CacheState) :
    CacheState × Nat :=
  if needsRefresh ttl now st.ts then (refresh_cache fetchOff fetchDef now, 1)
  else (st, 0)

/-- Declarative staleness condition, written by direct case analysis on
the stored timestamp. -/
def staleSpec (ttl now : Int) : Option Int → Bool
  | none => true
  | some t => t == 0 || decide (now - t > ttl)

theorem needsRefresh_eq_staleSpec (ttl now : Int) (ts : Option Int) :
    needsRefresh ttl now ts = staleSpec ttl now ts := by
  cases ts with
  | none => rfl
  | some t =>
    by_cases h : t = 0 <;> simp [needsRefresh, staleSpec, pyFalsyTs, h]

/-- Claim C1 (amended): `ensure_cache` performs exactly one refresh when the
stored timestamp is Python-falsy (no prior refresh has completed, or the
last completed refresh was stamped with clock value 0) or when strictly
more than the TTL has elapsed since the last completed refresh, and
performs zero refreshes otherwise, returning the cache unchanged.  The
staleness condition is characterised both as the executable `staleSpec`
and as a propositional disjunction. -/
theorem ensure_cache_spec (ttl now : Int)
    (fetchOff : String → String → Option OffTable)
    (fetchDef : String → String → Option DefTable) (st : CacheState) :
    (ensure_cache ttl now fetchOff fetchDef st =
      if staleSpec ttl now st.ts then (refresh_cache fetchOff fetchDef now, 1)
      else (st, 0))
    ∧ (staleSpec ttl now st.ts = true ↔
        st.ts = none ∨ st.ts = some 0 ∨ ∃ t, st.ts = some t ∧ now - t > ttl) := by
  constructor
  · rw [ensure_cache, needsRefresh_eq_staleSpec]
  · cases h : st.ts with
    | none => simp [staleSpec]
    | some t =>
      simp only [staleSpec, Bool.or_eq_true, beq_iff_eq, decide_eq_true_eq,
        Option.some.injEq, reduceCtorEq, false_or]
      constructor
      · rintro (ht | ht)
        · exact Or.inl (by simp [ht])
        · exact Or.inr ⟨t, rfl, ht⟩
      · rintro (ht | ⟨u, hu, hgt⟩)
        · exact Or.inl ht
        · cases hu
          exact Or.inr hgt

/-- A fetcher that fails for every play type. -/
def fetchOffNone : String → String → Option OffTable := fun _ _ => none

/-- A defensive fetcher that fails for every play type. -/
def fetchDefNone : String → String → Option DefTable := fun _ _ => none

/-- A cache state whose last completed refresh was stamped at clock 0. -/
def stTsZero : CacheState := { offCache := [], defCache := [], ts := some 0 }

/-- Claim C1 counterexample: with TTL 3600, current time 10, and a cache
state whose last completed refresh was stamped at time 0 (so a prior
refresh has completed and only 10 ≤ 3600 seconds have elapsed),
`ensure_cache` nevertheless performs one refresh, because the Python
guard `not cache_timestamp` treats the numeric timestamp 0 as false.
The claim as stated predicts zero refreshes here. -/
theorem ensure_cache_counterexample :
    (ensure_cache 3600 10 fetchOffNone fetchDefNone stTsZero).2 = 1
    ∧ stTsZero.ts = some 0
    ∧ ¬ ((10 : Int) - 0 > 3600) := by
  refine ⟨rfl, rfl, by decide⟩

/-- Membership in the snapshot built by the refresh loop: a play type is
present with table `tb` exactly when it is configured and its fetch
succeeded with `tb`. -/
theorem mem_buildSnapshot (fetch : String → String → Option α)
    (pairs : List (String × String)) (pt : String) (tb : α) :
    (pt, tb) ∈ buildSnapshot fetch pairs ↔
      ∃ url, (pt, url) ∈ pairs ∧ fetch url pt = some tb := by
  induction pairs with
  | nil => simp [buildSnapshot]
  | cons hd rest ih =>
    obtain ⟨p, u⟩ := hd
    cases hfetch : fetch u p with
    | none =>
      simp only [buildSnapshot, hfetch, ih, List.mem_cons, Prod.mk.injEq]
      constructor
      · rintro ⟨url, hmem, hf⟩
        exact ⟨url, Or.inr hmem, hf⟩
      · rintro ⟨url, hmem | hmem, hf⟩
        · obtain ⟨hp, hu⟩ := hmem
          subst hp; subst hu
          rw [hfetch] at hf
          exact absurd hf (by simp)
        · exact ⟨url, hmem, hf⟩
    | some s =>
      simp only [buildSnapshot, hfetch, List.mem_cons, Prod.mk.injEq, ih]
      constructor
      · rintro (⟨hp, hs⟩ | ⟨url, hmem, hf⟩)
        · subst hp
          exact ⟨u, Or.inl ⟨rfl, rfl⟩, by rw [hfetch, hs]⟩
        · exact ⟨url, Or.inr hmem, hf⟩
      · rintro ⟨url, hmem | hmem, hf⟩
        · obtain ⟨hp, hu⟩ := hmem
          subst hp; subst hu
          rw [hfetch] at hf
          exact Or.inl ⟨rfl, (Option.some.injEq ..).mp hf.symm⟩
        · exact Or.inr ⟨url, hmem, hf⟩

/-- Claim C2: a refresh run installs a snapshot containing exactly the
play types whose fetch succeeded (for offense and defense separately,
with the successful table as value), and stamps the timestamp with the
completion instant regardless of how many fetches failed. -/
theorem refresh_cache_installs (fetchOff : String → String → Option OffTable)
    (fetchDef : String → String → Option DefTable) (now : Int) :
    (∀ pt tb, (pt, tb) ∈ (refresh_cache fetchOff fetchDef now).offCache ↔
        ∃ url, (pt, url) ∈ offensive_play_types ∧ fetchOff url pt = some tb)
    ∧ (∀ pt tb, (pt, tb) ∈ (refresh_cache fetchOff fetchDef now).defCache ↔
        ∃ url, (pt, url) ∈ defensive_play_types ∧ fetchDef url pt = some tb)
    ∧ (refresh_cache fetchOff fetchDef now).ts = some now :=
  ⟨fun pt tb => mem_buildSnapshot fetchOff offensive_play_types pt tb,
   fun pt tb => mem_buildSnapshot fetchDef defensive_play_types pt tb,
   rfl⟩

/-! ## Query service (`get_player`, `get_defense`)

`normalize_text` is imported from `playerstyles1.py`, which is not one of
the backend files; the query theorems therefore quantify over an
arbitrary normalizer `norm`.  A concrete instance is given further below
for closed evaluations. -/

/-- One entry of the `player_data` list built by `get_player`. -/
structure PlayerRec where
  playType : String
  team : String
  pts : Rat
  player : String
deriving DecidableEq

/-- One entry of the `defense_data` list built by `get_defense`. -/
structure DefenseRec where
  playType : String
  team : String
  rank : Int
  ppp : Rat
deriving DecidableEq

/-- The coercion `float(v) if v else 0`: a Python-falsy numeric cell
(that is, the number 0) is coerced to 0, any other value is kept. -/
def pyCoerce (v : Rat) : Rat :=
  if v == 0 then 0 else v

def playerNotFoundMsg : String := "Player not found"
def teamNotFoundMsg : String := "Team not found"

/-- JSON bodies produced by the handlers, kept structured. -/
inductive Body where
  | err (msg : String)
  | playerPayload (player : String) (data : List PlayerRec)
  | defensePayload (team : String) (data : List DefenseRec)
  | matchupPayload (player defense : Body)
  | analysisPayload (analysis player team crewResult : String)
deriving DecidableEq

/-- A Python value returned by a route handler: either a bare Flask
response `jsonify(b)`, or the tuple `(jsonify(b), code)`. -/
inductive PyResp where
  | resp (b : Body)
  | withCode (b : Body) (code : Nat)
deriving DecidableEq

/-- The check `search_normalized in normalize_text(name)`. -/
def normalizeMatch (norm : String → String) (q name : String) : Bool :=
  strContains (norm name) (norm q)

/-- The column guard of `get_player`: PLAYER, PTS and TEAM must all be
columns of the table. -/
def hasPlayerCols (tb : OffTable) : Bool :=
  tb.columns.contains colPLAYER && tb.columns.contains colPTS
    && tb.columns.contains colTEAM

/-- The record appended for one matching row. -/
def mkPlayerRec (pt : String) (r : OffRow) : PlayerRec :=
  { playType := pt, team := r.team, pts := pyCoerce r.pts, player := r.player }

/-- Inner loop of `get_player`: iterate the filtered rows of one table,
appending a record for each. -/
def rowLoop (norm : String → String) (q pt : String) : List OffRow → List PlayerRec
  | [] => []
  | r :: rs =>
    if normalizeMatch norm q r.player then mkPlayerRec pt r :: rowLoop norm q pt rs
    else rowLoop norm q pt rs

/-- Outer loop of `get_player`: iterate the cached offensive tables,
skipping tables without the required columns. -/
def playerLoop (norm : String → String) (q : String) :
    List (String × OffTable) → List PlayerRec
  | [] => []
  | (pt, tb) :: rest =>
    (if hasPlayerCols tb then rowLoop norm q pt tb.rows else [])
      ++ playerLoop norm q rest

/-- Declarative characterisation of the matching records: one record per
row, across the cached offensive tables having the PLAYER/PTS/TEAM
columns, whose normalized player name contains the normalized query. -/
def matchingRecords (norm : String → String) (q : String)
    (cache : List (String × OffTable)) : List PlayerRec :=
  (cache.filter fun p => hasPlayerCols p.2).flatMap fun p =>
    (p.2.rows.filter fun r => normalizeMatch norm q r.player).map (mkPlayerRec p.1)

/-- `player_data[0]["player"] if player_data else player_name`. -/
def firstPlayerName (q : String) : List PlayerRec → String
  | [] => q
  | r :: _ => r.player

/-- The `/api/player/<player_name>` handler body (after `ensure_cache`,
which is modelled separately): on zero matches it returns the tuple
`(jsonify(error), 404)`, otherwise a bare 200 response. -/
def get_player (norm : String → String) (cache : List (String × OffTable))
    (q : String) : PyResp :=
  let pd := playerLoop norm q cache
  if pd.isEmpty then PyResp.withCode (Body.err playerNotFoundMsg) 404
  else PyResp.resp (Body.playerPayload (firstPlayerName q pd) pd)

theorem rowLoop_eq (norm : String → String) (q pt : String) (rows : List OffRow) :
    rowLoop norm q pt rows =
      (rows.filter fun r => normalizeMatch norm q r.player).map (mkPlayerRec pt) := by
  induction rows with
  | nil => rfl
  | cons r rs ih =>
    by_cases h : normalizeMatch norm q r.player
      <;> simp [rowLoop, List.filter_cons, h, ih]

theorem playerLoop_eq (norm : String → String) (q : String)
    (cache : List (String × OffTable)) :
    playerLoop norm q cache = matchingRecords norm q cache := by
  induction cache with
  | nil => rfl
  | cons hd rest ih =>
    obtain ⟨pt, tb⟩ := hd
    by_cases h : hasPlayerCols tb
      <;> simp [playerLoop, matchingRecords, List.filter_cons, h, ih, rowLoop_eq]

/-- Claim C3: `get_player` returns one record per matching row across
every cached offensive play-type table having the PLAYER/PTS/TEAM
columns (all matches, with multiplicity, not deduplicated), and returns
the 404 not-found tuple exactly when zero rows match; the matching test
is containment of the normalized query as a contiguous substring of the
normalized player name. -/
theorem get_player_spec (norm : String → String)
    (cache : List (String × OffTable)) (q : String) :
    (get_player norm cache q =
      if matchingRecords norm q cache = [] then
        PyResp.withCode (Body.err playerNotFoundMsg) 404
      else
        PyResp.resp (Body.playerPayload
          (firstPlayerName q (matchingRecords norm q cache))
          (matchingRecords norm q cache)))
    ∧ (get_player norm cache q = PyResp.withCode (Body.err playerNotFoundMsg) 404 ↔
        matchingRecords norm q cache = [])
    ∧ (∀ name, normalizeMatch norm q name = true ↔
        ∃ l r, (norm name).data = l ++ (norm q).data ++ r) := by
  have hloop := playerLoop_eq norm q cache
  refine ⟨?_, ?_, fun name => strContains_iff (norm name) (norm q)⟩
  · rw [get_player, hloop]
    by_cases h : matchingRecords norm q cache = [] <;> simp [h]
  · rw [get_player, hloop]
    by_cases h : matchingRecords norm q cache = [] <;> simp [h]

/-- The team match of `get_defense`:
`df["TEAM"].str.contains(team_name, case=False)`, a case-insensitive
substring test. -/
def teamMatch (q team : String) : Bool :=
  strContains (strLower team) (strLower q)

/-- The record appended for one matching defensive row. -/
def mkDefenseRec (pt : String) (r : DefRow) : DefenseRec :=
  { playType := pt, team := r.team, rank := r.rank, ppp := pyCoerce r.ppp }

/-- Inner loop of `get_defense`. -/
def defRowLoop (q pt : String) : List DefRow → List DefenseRec
  | [] => []
  | r :: rs =>
    if teamMatch q r.team then mkDefenseRec pt r :: defRowLoop q pt rs
    else defRowLoop q pt rs

/-- Outer loop of `get_defense`. -/
def defenseLoop (q : String) : List (String × DefTable) → List DefenseRec
  | [] => []
  | (pt, tb) :: rest => defRowLoop q pt tb.rows ++ defenseLoop q rest

/-- `defense_data[0]["team"] if defense_data else team_name`. -/
def firstTeamName (q : String) : List DefenseRec → String
  | [] => q
  | r :: _ => r.team

/-- The `/api/defense/<team_name>` handler body. -/
def get_defense (cache : List (String × DefTable)) (q : String) : PyResp :=
  let dd := defenseLoop q cache
  if dd.isEmpty then PyResp.withCode (Body.err teamNotFoundMsg) 404
  else PyResp.resp (Body.defensePayload (firstTeamName q dd) dd)

/-! ## Matchup (`get_matchup`) and the Response-subscript semantics -/

def notSubscriptableMsg : String := "\x27Response\x27 object is not subscriptable"

/-- A Python runtime error raised while evaluating a handler body. -/
inductive PyErr where
  | typeError (msg : String)
deriving DecidableEq

/-- Python evaluation of `resp[1]`: on the tuple `(response, code)` this
yields the status code; a bare Flask `Response` is not subscriptable, so
it raises TypeError. -/
def respIndexOne : PyResp → Except PyErr Nat
  | PyResp.withCode _ c => Except.ok c
  | PyResp.resp _ => Except.error (PyErr.typeError notSubscriptableMsg)

/-- Python evaluation of `resp[0].get_json()`: on a tuple this yields the
response body; a bare `Response` again raises TypeError. -/
def respIndexZero : PyResp → Except PyErr Body
  | PyResp.withCode b _ => Except.ok b
  | PyResp.resp _ => Except.error (PyErr.typeError notSubscriptableMsg)

/-- The `/api/matchup/<player_name>/<team_name>` handler body, with the
subscripting on the sub-handler results made explicit.  The result is
either a returned Python value or an uncaught runtime error. -/
def get_matchup (norm : String → String) (offC : List (String × OffTable))
    (defC : List (String × DefTable)) (p t : String) : Except PyErr PyResp :=
  let pr := get_player norm offC p
  match respIndexOne pr with
  | Except.error e => Except.error e
  | Except.ok c =>
    if c == 404 then Except.ok pr
    else
      let dr := get_defense defC t
      match respIndexOne dr with
      | Except.error e => Except.error e
      | Except.ok c2 =>
        if c2 == 404 then Except.ok dr
        else
          match respIndexZero pr, respIndexZero dr with
          | Except.ok pj, Except.ok dj =>
            Except.ok (PyResp.resp (Body.matchupPayload pj dj))
          | Except.error e, _ => Except.error e
          | _, Except.error e => Except.error e

/-- Claim C9: whenever the player query succeeds (at least one offensive
row matches), `get_matchup` raises a TypeError at `player_response[1]`,
because the success path of `get_player` returns a bare response; when
the player query finds nothing, the (response, 404) tuple is propagated;
consequently `get_matchup` never returns the combined matchup payload. -/
theorem get_matchup_never_combines (norm : String → String)
    (offC : List (String × OffTable)) (defC : List (String × DefTable))
    (p t : String) :
    (playerLoop norm p offC ≠ [] →
      get_matchup norm offC defC p t =
        Except.error (PyErr.typeError notSubscriptableMsg))
    ∧ (playerLoop norm p offC = [] →
      get_matchup norm offC defC p t =
        Except.ok (PyResp.withCode (Body.err playerNotFoundMsg) 404))
    ∧ ∀ pj dj, get_matchup norm offC defC p t ≠
        Except.ok (PyResp.resp (Body.matchupPayload pj dj)) := by
  refine ⟨fun hne => ?_, fun he => ?_, fun pj dj => ?_⟩
  · rw [get_matchup, get_player]
    simp [List.isEmpty_iff, hne, respIndexOne]
  · rw [get_matchup, get_player]
    simp [List.isEmpty_iff, he, respIndexOne]
  · rw [get_matchup, get_player]
    by_cases he : playerLoop norm p offC = [] <;>
      simp [List.isEmpty_iff, he, respIndexOne]

/-- Modelled from the spec: `normalize_text` from `playerstyles1.py`,
which is not among the backend source files; the spec describes it as
case-folding plus whitespace/punctuation normalization.  Modelled as
lowercasing and dropping every character that is neither alphanumeric
nor a space. -/
def normalize_text (s : String) : String :=
  String.mk ((strLower s).data.filter fun c => c.isAlphanum || c == spaceChar)

def jbName : String := "Jimmy Butler III"
def jbQuery : String := "jimmy butler"
def miaTeam : String := "MIA"
def lakersTeam : String := "Lakers"

/-- A cached Spot-Up offensive table containing one row for Jimmy
Butler III. -/
def tbButler : OffTable :=
  { columns := [colPLAYER, colPTS, colTEAM]
    rows := [{ player := jbName, team := miaTeam, pts := 25 }] }

/-- An offensive cache holding the Butler table, and an empty defensive
cache (so any team query is unknown). -/
def cacheButler : List (String × OffTable) := [(ptSpot, tbButler)]

def cacheDefEmpty : List (String × DefTable) := []

/-- Claim C4 (code bug witness): at a concrete input where the player
query succeeds (the normalized query is a substring of the normalized
cached name) and the team is unknown, `get_matchup` raises TypeError
instead of returning the defense not-found condition: the success path
of `get_player` returns a bare response that `get_matchup` subscripts. -/
theorem get_matchup_crashes_on_valid_player :
    playerLoop normalize_text jbQuery cacheButler ≠ []
    ∧ get_matchup normalize_text cacheButler cacheDefEmpty jbQuery lakersTeam =
        Except.error (PyErr.typeError notSubscriptableMsg) := by
  exact ⟨by decide, rfl⟩

def scName : String := "Stephen Curry"
def scQuery : String := "stephen curry"
def gswTeam : String := "GSW"
def miamiTeam : String := "Miami"

/-- An Isolation offensive table with one row for Stephen Curry. -/
def tbCurry : OffTable :=
  { columns := [colPLAYER, colPTS, colTEAM]
    rows := [{ player := scName, team := gswTeam, pts := 30 }] }

def cacheCurry : List (String × OffTable) := [(ptIso, tbCurry)]

/-- Witness for claim C9 at a concrete input with a successful player
query: the matchup handler raises TypeError. -/
theorem get_matchup_never_combines_witness :
    playerLoop normalize_text scQuery cacheCurry ≠ []
    ∧ get_matchup normalize_text cacheCurry cacheDefEmpty scQuery miamiTeam =
        Except.error (PyErr.typeError notSubscriptableMsg) :=
  ⟨by decide,
   (get_matchup_never_combines normalize_text cacheCurry cacheDefEmpty scQuery
     miamiTeam).1 (by decide)⟩

/-! ## Analysis orchestrator: retry on rate limit (claim C5)

Neither backend file under `src/` contains the retry loop itself: in
both, the per-persona generation calls happen inside the external crew
library, and only the rate-limit error classification (the except
branch) appears in these files.  The retrying variant of the
orchestrator lives in the other file variants of this repository, so it
is modelled from the spec here. -/

/-- Outcome of one invocation of the external generation service. -/
inductive GenResult where
  | ok (text : String)
  | rateLimited
  | failed (msg : String)
deriving DecidableEq

/-- Outcome of one persona call after the retry policy. -/
inductive RetryOutcome where
  | success (text : String)
  | rateLimitError
  | genericError (msg : String)
deriving DecidableEq

/-- Modelled from the spec: the per-persona generation call of the
Analysis Orchestrator (absent from the files under `src/`): on a
rate-limit signal, retry with a fixed 5 second delay, up to 2 attempts
total; exhausted retries surface the dedicated rate-limit error; any
other invocation error propagates as a generic failure.  The service
stub is indexed by the attempt number; the result records the number of
attempts made, the total delay slept in seconds, and the outcome. -/
def generateWithRetry (svc : Nat → GenResult) : Nat × Nat × RetryOutcome :=
  match svc 0 with
  | GenResult.ok t => (1, 0, RetryOutcome.success t)
  | GenResult.failed m => (1, 0, RetryOutcome.genericError m)
  | GenResult.rateLimited =>
    match svc 1 with
    | GenResult.ok t => (2, 5, RetryOutcome.success t)
    | GenResult.failed m => (2, 5, RetryOutcome.genericError m)
    | GenResult.rateLimited => (2, 5, RetryOutcome.rateLimitError)

/-- Modelled from the spec: the sequential multi-persona analysis; a
persona whose retries exhaust fails the whole analysis. -/
def runAnalysis : List (Nat → GenResult) → Except RetryOutcome (List String)
  | [] => Except.ok []
  | svc :: rest =>
    match (generateWithRetry svc).2.2 with
    | RetryOutcome.success t => (runAnalysis rest).map (fun ts => t :: ts)
    | RetryOutcome.rateLimitError => Except.error RetryOutcome.rateLimitError
    | RetryOutcome.genericError m => Except.error (RetryOutcome.genericError m)

/-- Claim C5: when the service signals a rate limit, exactly 2 attempts
are made per persona with a fixed 5 second delay between them; if both
attempts are rate-limited the whole analysis fails with the rate-limit
error, which is distinct from every generic failure; if the first
attempt is rate-limited and the second succeeds, the second result is
used. -/
theorem retry_policy_spec (svc : Nat → GenResult) :
    (svc 0 = GenResult.rateLimited → svc 1 = GenResult.rateLimited →
      generateWithRetry svc = (2, 5, RetryOutcome.rateLimitError)
      ∧ ∀ rest, runAnalysis (svc :: rest) = Except.error RetryOutcome.rateLimitError)
    ∧ (∀ t, svc 0 = GenResult.rateLimited → svc 1 = GenResult.ok t →
      generateWithRetry svc = (2, 5, RetryOutcome.success t))
    ∧ (∀ m, RetryOutcome.rateLimitError ≠ RetryOutcome.genericError m) := by
  refine ⟨fun h0 h1 => ?_, fun t h0 h1 => ?_, fun m => by simp⟩
  · have hg : generateWithRetry svc = (2, 5, RetryOutcome.rateLimitError) := by
      rw [generateWithRetry, h0, h1]
    exact ⟨hg, fun rest => by rw [runAnalysis, hg]⟩
  · rw [generateWithRetry, h0, h1]

/-- A generation stub that signals a rate limit on every call. -/
def stubAlwaysLimited : Nat → GenResult := fun _ => GenResult.rateLimited

def secondText : String := "second attempt analysis"

/-- A generation stub that is rate-limited on the first attempt and
succeeds on the second. -/
def stubSecondOk : Nat → GenResult := fun n =>
  if n == 0 then GenResult.rateLimited else GenResult.ok secondText

/-- Witness for claim C5 on the two concrete stubs from the spec. -/
theorem retry_policy_spec_witness :
    generateWithRetry stubAlwaysLimited = (2, 5, RetryOutcome.rateLimitError)
    ∧ runAnalysis [stubAlwaysLimited] = Except.error RetryOutcome.rateLimitError
    ∧ generateWithRetry stubSecondOk = (2, 5, RetryOutcome.success secondText) :=
  ⟨((retry_policy_spec stubAlwaysLimited).1 rfl rfl).1,
   ((retry_policy_spec stubAlwaysLimited).1 rfl rfl).2 [],
   (retry_policy_spec stubSecondOk).2.1 secondText rfl rfl⟩

/-! ## The `/api/ai-analysis` handler (claims C6, C7, C10) -/

/-- A caller-supplied offensive stat summary entry. -/
structure OffStat where
  playType : String
  pts : Rat
deriving DecidableEq

/-- A caller-supplied defensive stat summary entry. -/
structure DefStat where
  playType : String
  rank : Int
  ppp : Rat
deriving DecidableEq

/-- The parsed JSON body of a POST `/api/ai-analysis` request;
`data.get` yields `none` for an absent key. -/
structure AnalysisReq where
  playerName : Option String
  teamName : Option String
  playerStats : List OffStat
  defenseStats : List DefStat
deriving DecidableEq

def emptyStr : String := ""

/-- Python truthiness of `data.get(key)` for a string field: falsy when
the key is absent (None) or the value is the empty string. -/
def pyFalsyStr : Option String → Bool
  | none => true
  | some s => s == emptyStr

def quotaTok : String := "quota"
def tok429 : String := "429"
def missingNamesMsg : String := "Missing player or team name"
def rateLimitRespMsg : String := "Rate limit exceeded. Please wait a minute and try again."
def analysisFailedPre : String := "Analysis failed: "

/-- The rate-limit classification of the except branch:
`if "quota" in error_message.lower() or "429" in error_message`. -/
def isRateLimitMsg (m : String) : Bool :=
  strContains (strLower m) quotaTok || strContains m tok429

/-- An HTTP response: status code and JSON body. -/
structure HttpResp where
  status : Nat
  body : Body
deriving DecidableEq

/-- The except branch of `ai_analysis`, mapping a caught exception
message to a 429 or 500 response. -/
def handleAnalysisExc (m : String) : HttpResp :=
  if isRateLimitMsg m then { status := 429, body := Body.err rateLimitRespMsg }
  else { status := 500, body := Body.err (analysisFailedPre ++ m) }

/-- The `/api/ai-analysis` handler, shared by both backend variants.
Everything after the missing-name check (prompt building, agent and
crew construction, crew kickoff, output formatting) is abstracted as
`work`, which either produces the 200 payload body or raises an
exception rendered as its message string.  The second component counts
how often `work` ran, so that the claim that the name check precedes
any external call is expressible. -/
def ai_analysis (req : AnalysisReq) (work : AnalysisReq → Except String Body) :
    HttpResp × Nat :=
  if pyFalsyStr req.playerName || pyFalsyStr req.teamName then
    ({ status := 400, body := Body.err missingNamesMsg }, 0)
  else
    match work req with
    | Except.ok b => ({ status := 200, body := b }, 1)
    | Except.error m => (handleAnalysisExc m, 1)

/-- Claim C6: the handler returns 400 exactly when the player or team
name is missing (absent or Python-falsy), in which case nothing else
runs; for well-formed requests it returns 429 exactly when the raised
exception message signals a rate limit (contains quota case-insensitively
or 429, the condition under which exhausted-retry rate-limit failures
are recognised), and 500 with the error message surfaced for any other
exception. -/
theorem ai_analysis_statuses (req : AnalysisReq)
    (work : AnalysisReq → Except String Body) :
    ((ai_analysis req work).1.status = 400 ↔
      req.playerName = none ∨ req.playerName = some emptyStr
        ∨ req.teamName = none ∨ req.teamName = some emptyStr)
    ∧ ((ai_analysis req work).1.status = 400 → (ai_analysis req work).2 = 0)
    ∧ ((ai_analysis req work).1.status = 429 ↔
      pyFalsyStr req.playerName = false ∧ pyFalsyStr req.teamName = false
        ∧ ∃ m, work req = Except.error m ∧ isRateLimitMsg m = true)
    ∧ (∀ m, pyFalsyStr req.playerName = false → pyFalsyStr req.teamName = false →
      work req = Except.error m → isRateLimitMsg m = false →
      ai_analysis req work =
        ({ status := 500, body := Body.err (analysisFailedPre ++ m) }, 1)) := by
  have hfalsy : ∀ o : Option String, pyFalsyStr o = true ↔ o = none ∨ o = some emptyStr := by
    intro o
    cases o with
    | none => simp [pyFalsyStr]
    | some s => simp [pyFalsyStr]
  by_cases hcond : (pyFalsyStr req.playerName || pyFalsyStr req.teamName) = true
  · have hres : ai_analysis req work =
        ({ status := 400, body := Body.err missingNamesMsg }, 0) := by
      simp [ai_analysis, hcond]
    have hdisj : req.playerName = none ∨ req.playerName = some emptyStr
        ∨ req.teamName = none ∨ req.teamName = some emptyStr := by
      rcases Bool.or_eq_true_iff.mp hcond with h | h
      · rcases (hfalsy req.playerName).mp h with h2 | h2
        · exact Or.inl h2
        · exact Or.inr (Or.inl h2)
      · rcases (hfalsy req.teamName).mp h with h2 | h2
        · exact Or.inr (Or.inr (Or.inl h2))
        · exact Or.inr (Or.inr (Or.inr h2))
    refine ⟨?_, ?_, ?_, ?_⟩
    · rw [hres]
      exact iff_of_true rfl hdisj
    · intro _
      rw [hres]
    · rw [hres]
      constructor
      · intro h; exact absurd h (by decide)
      · rintro ⟨h1, h2, -⟩
        rw [h1, h2] at hcond
        exact absurd hcond (by decide)
    · intro m h1 h2 _ _
      rw [h1, h2] at hcond
      exact absurd hcond (by decide)
  · have hfalse : (pyFalsyStr req.playerName || pyFalsyStr req.teamName) = false :=
      Bool.eq_false_iff.mpr hcond
    obtain ⟨hp1, hp2⟩ := Bool.or_eq_false_iff.mp hfalse
    have hnd : ¬(req.playerName = none ∨ req.playerName = some emptyStr
        ∨ req.teamName = none ∨ req.teamName = some emptyStr) := by
      rintro (h | h | h | h)
      · rw [(hfalsy req.playerName).mpr (Or.inl h)] at hp1; exact absurd hp1 (by decide)
      · rw [(hfalsy req.playerName).mpr (Or.inr h)] at hp1; exact absurd hp1 (by decide)
      · rw [(hfalsy req.teamName).mpr (Or.inl h)] at hp2; exact absurd hp2 (by decide)
      · rw [(hfalsy req.teamName).mpr (Or.inr h)] at hp2; exact absurd hp2 (by decide)
    cases hw : work req with
    | ok b =>
      have hres : ai_analysis req work = ({ status := 200, body := b }, 1) := by
        simp [ai_analysis, hp1, hp2, hw]
      refine ⟨?_, ?_, ?_, ?_⟩
      · rw [hres]
        exact iff_of_false (by simp) hnd
      · intro h; exact absurd (hres ▸ h) (by simp)
      · rw [hres]
        refine iff_of_false (by simp) ?_
        rintro ⟨-, -, m, hm, -⟩
        exact absurd hm (by simp)
      · intro m _ _ hm _
        exact absurd hm (by simp)
    | error m =>
      by_cases hr : isRateLimitMsg m = true
      · have hres : ai_analysis req work =
            ({ status := 429, body := Body.err rateLimitRespMsg }, 1) := by
          simp [ai_analysis, hp1, hp2, hw, handleAnalysisExc, hr]
        refine ⟨?_, ?_, ?_, ?_⟩
        · rw [hres]
          exact iff_of_false (by decide) hnd
        · intro h; exact absurd (hres ▸ h) (by decide)
        · rw [hres]
          exact iff_of_true rfl ⟨hp1, hp2, m, rfl, hr⟩
        · intro m2 _ _ hm2 hr2
          injection hm2 with hmeq
          subst hmeq
          rw [hr2] at hr
          exact absurd hr (by decide)
      · have hres : ai_analysis req work =
            ({ status := 500, body := Body.err (analysisFailedPre ++ m) }, 1) := by
          simp [ai_analysis, hp1, hp2, hw, handleAnalysisExc, hr]
        refine ⟨?_, ?_, ?_, ?_⟩
        · rw [hres]
          exact iff_of_false (by simp) hnd
        · intro h; exact absurd (hres ▸ h) (by simp)
        · rw [hres]
          refine iff_of_false (by simp) ?_
          rintro ⟨-, -, m2, hm2, hr2⟩
          injection hm2 with hmeq
          subst hmeq
          exact hr hr2
        · intro m2 _ _ hm2 _
          injection hm2 with hmeq
          subst hmeq
          exact hres

def lebron : String := "LeBron James"
def celtics : String := "Boston Celtics"
def boomMsg : String := "boom"
def quotaMsg : String := "Quota exceeded for gemini requests"

/-- A request with the player name absent. -/
def reqMissingPlayer : AnalysisReq :=
  { playerName := none, teamName := some celtics, playerStats := [], defenseStats := [] }

/-- A well-formed request. -/
def reqGood : AnalysisReq :=
  { playerName := some lebron, teamName := some celtics
    playerStats := [], defenseStats := [] }

def workQuota : AnalysisReq → Except String Body := fun _ => Except.error quotaMsg

def workBoom : AnalysisReq → Except String Body := fun _ => Except.error boomMsg

/-- Witness for claim C6 at concrete requests: a missing player name
yields 400 with zero external calls, a quota failure yields 429, and a
generic failure yields 500 carrying the message. -/
theorem ai_analysis_statuses_witness :
    (ai_analysis reqMissingPlayer workBoom).1.status = 400
    ∧ (ai_analysis reqMissingPlayer workBoom).2 = 0
    ∧ (ai_analysis reqGood workQuota).1.status = 429
    ∧ ai_analysis reqGood workBoom =
        ({ status := 500, body := Body.err (analysisFailedPre ++ boomMsg) }, 1) :=
  ⟨(ai_analysis_statuses reqMissingPlayer workBoom).1.mpr (Or.inl rfl),
   (ai_analysis_statuses reqMissingPlayer workBoom).2.1
     ((ai_analysis_statuses reqMissingPlayer workBoom).1.mpr (Or.inl rfl)),
   (ai_analysis_statuses reqGood workQuota).2.2.1.mpr
     ⟨rfl, rfl, quotaMsg, rfl, by decide⟩,
   (ai_analysis_statuses reqGood workBoom).2.2.2 boomMsg rfl rfl rfl (by decide)⟩

/-! ## Prompt stat summaries (claim C7)

`sorted(player_stats, key=pts, reverse=True)` and
`sorted(defense_stats, key=rank)` are modelled with a sort over the
corresponding relations; the float formatting of an individual entry
(`.1f` / `.2f`) is abstracted as a format function parameter. -/

/-- Descending-points order on offensive stat entries. -/
def offDesc (a b : OffStat) : Prop := b.pts ≤ a.pts

/-- Ascending-rank order on defensive stat entries. -/
def defAsc (a b : DefStat) : Prop := a.rank ≤ b.rank

instance : DecidableRel offDesc := fun a b =>
  inferInstanceAs (Decidable (b.pts ≤ a.pts))

instance : DecidableRel defAsc := fun a b =>
  inferInstanceAs (Decidable (a.rank ≤ b.rank))

instance : IsTotal OffStat offDesc := ⟨fun a b => le_total b.pts a.pts⟩

instance : IsTrans OffStat offDesc :=
  ⟨fun _ _ _ h1 h2 => le_trans h2 h1⟩

instance : IsTotal DefStat defAsc := ⟨fun a b => le_total a.rank b.rank⟩

instance : IsTrans DefStat defAsc :=
  ⟨fun _ _ _ h1 h2 => le_trans h1 h2⟩

def commaSep : String := ", "

/-- `", ".join(...)`. -/
def joinComma (xs : List String) : String :=
  String.intercalate commaSep xs

/-- `player_stats_text`: the offensive entries sorted by descending
points, formatted and comma-joined. -/
def playerStatsText (fmt : OffStat → String) (stats : List OffStat) : String :=
  joinComma ((List.insertionSort offDesc stats).map fmt)

/-- `defense_stats_text`: the defensive entries sorted by ascending
rank, formatted and comma-joined. -/
def defenseStatsText (fmt : DefStat → String) (stats : List DefStat) : String :=
  joinComma ((List.insertionSort defAsc stats).map fmt)

def mcHead : String := "\nMATCHUP: "
def mcVs : String := " vs "
def mcOff : String := "\n\nPLAYER OFFENSIVE STATS:\n"
def mcDef : String := "\n\nTEAM DEFENSIVE STATS:\n"
def mcTail : String := "\n"

/-- The `matchup_context` prompt template, receiving the two rendered
stat summaries. -/
def matchup_context (player team pText dText : String) : String :=
  mcHead ++ player ++ mcVs ++ team ++ mcOff ++ pText ++ mcDef ++ dText ++ mcTail

/-- Claim C7: the stat summaries rendered into the analysis prompt list
the offensive entries as a permutation of the caller-supplied list
sorted by descending points, and the defensive entries as a permutation
sorted by ascending rank, and both rendered summaries occur verbatim
inside the prompt context. -/
theorem prompt_stats_sorted (fmtO : OffStat → String) (fmtD : DefStat → String)
    (ps : List OffStat) (ds : List DefStat) :
    ∃ ps2 ds2, List.Perm ps2 ps ∧ List.Perm ds2 ds
      ∧ List.Sorted offDesc ps2 ∧ List.Sorted defAsc ds2
      ∧ playerStatsText fmtO ps = joinComma (ps2.map fmtO)
      ∧ defenseStatsText fmtD ds = joinComma (ds2.map fmtD)
      ∧ ∀ player team, ∃ l r,
          (matchup_context player team (playerStatsText fmtO ps)
            (defenseStatsText fmtD ds)).data =
          l ++ (playerStatsText fmtO ps).data ++ r := by
  refine ⟨List.insertionSort offDesc ps, List.insertionSort defAsc ds,
    List.perm_insertionSort offDesc ps, List.perm_insertionSort defAsc ds,
    List.sorted_insertionSort offDesc ps, List.sorted_insertionSort defAsc ds,
    rfl, rfl, fun player team => ?_⟩
  refine ⟨(mcHead ++ player ++ mcVs ++ team ++ mcOff).data,
    (mcDef ++ defenseStatsText fmtD ds ++ mcTail).data, ?_⟩
  simp [matchup_context, String.data_append]

/-! ## Concurrency of the cache swap (claim C8)

The installation at the end of `refresh_cache` is the statement sequence
`offensive_cache = temp_offensive; defensive_cache = temp_defensive;
cache_timestamp = time.time()` — three separate assignments to the
shared globals.  A concurrent reader scheduled between two of them
observes the state after a prefix of the writes.  `afterWrites old tgt k`
is the shared state visible after the first `k` of the three writes. -/

/-- Apply the `k`-th write of the installation sequence. -/
def swapStep (tgt s : CacheState) (k : Nat) : CacheState :=
  match k with
  | 0 => { s with offCache := tgt.offCache }
  | 1 => { s with defCache := tgt.defCache }
  | _ => { s with ts := tgt.ts }

/-- The shared cache state observable after the first `k` writes of the
installation sequence replacing `old` by `tgt`. -/
def afterWrites (old tgt : CacheState) : Nat → CacheState
  | 0 => old
  | k + 1 => swapStep tgt (afterWrites old tgt k) k

/-- Claim C8 (amended): the swap is not one atomic action but three
ordered field writes; a reader concurrent with a refresh observes
exactly one of the four write-prefix states (in particular possibly new
offense with old defense), each individual field is always either the
old or the new value (no torn map), the state before any write is the
old snapshot, and the state after all three writes is the new one. -/
theorem cache_swap_prefix_states (old tgt : CacheState) (k : Fin 4) :
    (afterWrites old tgt k.val ∈
      [old,
       { old with offCache := tgt.offCache },
       { old with offCache := tgt.offCache, defCache := tgt.defCache },
       tgt])
    ∧ ((afterWrites old tgt k.val).offCache = old.offCache
        ∨ (afterWrites old tgt k.val).offCache = tgt.offCache)
    ∧ ((afterWrites old tgt k.val).defCache = old.defCache
        ∨ (afterWrites old tgt k.val).defCache = tgt.defCache)
    ∧ ((afterWrites old tgt k.val).ts = old.ts
        ∨ (afterWrites old tgt k.val).ts = tgt.ts)
    ∧ afterWrites old tgt 0 = old
    ∧ afterWrites old tgt 3 = tgt := by
  fin_cases k <;>
    simp [afterWrites, swapStep]

/-- A defensive Isolation table used by the concrete mixed-state reader. -/
def dtbIso : DefTable := { rows := [{ team := celtics, rank := 1, ppp := 1 }] }

/-- The previously-served snapshot: a nonempty offensive cache, an empty
defensive cache, timestamp 1. -/
def oldSnapshot : CacheState :=
  { offCache := [(ptSpot, tbButler)], defCache := [], ts := some 1 }

/-- A defensive fetcher succeeding only for Isolation. -/
def fetchDefIsoOnly : String → String → Option DefTable := fun _ pt =>
  if pt == ptIso then some dtbIso else none

/-- Claim C8 counterexample: during a refresh that installs the snapshot
produced by `refresh_cache` (empty offense, Isolation-only defense,
timestamp 2) over `oldSnapshot`, a reader scheduled after the first of
the three assignments observes the new offensive cache together with
the old defensive cache and the old timestamp — a state equal neither
to the fully-old nor to the fully-new snapshot, refuting atomicity of
the swap. -/
theorem cache_swap_counterexample :
    (afterWrites oldSnapshot (refresh_cache fetchOffNone fetchDefIsoOnly 2) 1).offCache
      = (refresh_cache fetchOffNone fetchDefIsoOnly 2).offCache
    ∧ (afterWrites oldSnapshot (refresh_cache fetchOffNone fetchDefIsoOnly 2) 1).defCache
      = oldSnapshot.defCache
    ∧ (afterWrites oldSnapshot (refresh_cache fetchOffNone fetchDefIsoOnly 2) 1).ts
      = oldSnapshot.ts
    ∧ afterWrites oldSnapshot (refresh_cache fetchOffNone fetchDefIsoOnly 2) 1
      ≠ oldSnapshot
    ∧ afterWrites oldSnapshot (refresh_cache fetchOffNone fetchDefIsoOnly 2) 1
      ≠ refresh_cache fetchOffNone fetchDefIsoOnly 2 := by
  refine ⟨rfl, rfl, rfl, by decide, by decide⟩

/-! ## The two backend variants of the analysis body (claim C10)

`flask_backend.py` constructs its crew from the task variables
`offensive_task`, `defensive_task`, `neutral_task`, `betting_task`,
none of which is assigned anywhere in that file (only `debate_task`
is); evaluating the task list therefore raises
`NameError: name offensive_task is not defined` before the crew ever
runs.  `flask_backend2.py` assigns all four task variables.  Python
name resolution is modelled by a lookup in the list of names the
variant has bound at that point. -/

def offTaskName : String := "offensive_task"
def defTaskName : String := "defensive_task"
def neuTaskName : String := "neutral_task"
def betTaskName : String := "betting_task"
def debateTaskName : String := "debate_task"

def nameErrPre : String := "name \x27"
def nameErrSuf : String := "\x27 is not defined"

/-- The NameError message for an unbound name. -/
def nameErrorFor (n : String) : String :=
  nameErrPre ++ n ++ nameErrSuf

/-- Python evaluation of a bare name against the bound local names. -/
def lookupName (bound : List String) (n : String) : Except String Unit :=
  if bound.contains n then Except.ok () else Except.error (nameErrorFor n)

/-- Left-to-right evaluation of the expressions in the crew task list;
the first unbound name raises. -/
def evalTaskList (bound : List String) : List String → Except String Unit
  | [] => Except.ok ()
  | n :: rest =>
    match lookupName bound n with
    | Except.ok _ => evalTaskList bound rest
    | Except.error e => Except.error e

/-- The task names referenced by `tasks=[...]` in the crew construction
of both variants. -/
def crewTaskNames : List String :=
  [offTaskName, defTaskName, neuTaskName, betTaskName]

/-- Task variables bound in `flask_backend.py` before the crew
construction: only `debate_task`. -/
def v1BoundTasks : List String := [debateTaskName]

/-- Task variables bound in `flask_backend2.py` before the crew
construction: all four referenced tasks. -/
def v2BoundTasks : List String :=
  [offTaskName, defTaskName, neuTaskName, betTaskName]

/-- The try-body of `ai_analysis` in `flask_backend.py`: evaluate the
crew task list (raising NameError on the first unbound name), then run
the kickoff and formatting, abstracted as `kick`. -/
def aiAnalysisBodyV1 (kick : Except String Body) : Except String Body :=
  match evalTaskList v1BoundTasks crewTaskNames with
  | Except.error e => Except.error e
  | Except.ok _ => kick

/-- The try-body of `ai_analysis` in `flask_backend2.py`. -/
def aiAnalysisBodyV2 (kick : Except String Body) : Except String Body :=
  match evalTaskList v2BoundTasks crewTaskNames with
  | Except.error e => Except.error e
  | Except.ok _ => kick

/-- The full `/api/ai-analysis` handler of `flask_backend.py`. -/
def ai_analysis_v1 (req : AnalysisReq) (kick : Except String Body) :
    HttpResp × Nat :=
  ai_analysis req (fun _ => aiAnalysisBodyV1 kick)

/-- The full `/api/ai-analysis` handler of `flask_backend2.py`. -/
def ai_analysis_v2 (req : AnalysisReq) (kick : Except String Body) :
    HttpResp × Nat :=
  ai_analysis req (fun _ => aiAnalysisBodyV2 kick)

/-- Claim C10: for every well-formed request (both names non-falsy) and
every behaviour of the external kickoff, the `flask_backend.py` handler
returns 500 carrying the NameError message for `offensive_task` (which
contains neither quota nor 429, so the generic branch fires), and never
the 200 payload; the `flask_backend2.py` handler, whose task variables
are all bound, returns the 200 payload whenever kickoff succeeds, so
the two variants are not behaviourally equivalent on this endpoint. -/
theorem ai_analysis_v1_always_500 (req : AnalysisReq)
    (kick : Except String Body) :
    (pyFalsyStr req.playerName = false → pyFalsyStr req.teamName = false →
      ai_analysis_v1 req kick =
        ({ status := 500
           body := Body.err (analysisFailedPre ++ nameErrorFor offTaskName) }, 1)
      ∧ (ai_analysis_v1 req kick).1.status ≠ 200
      ∧ isRateLimitMsg (nameErrorFor offTaskName) = false)
    ∧ (∀ b, pyFalsyStr req.playerName = false → pyFalsyStr req.teamName = false →
      kick = Except.ok b →
      ai_analysis_v2 req kick = ({ status := 200, body := b }, 1)
      ∧ ai_analysis_v2 req kick ≠ ai_analysis_v1 req kick) := by
  have hbody1 : aiAnalysisBodyV1 kick =
      Except.error (nameErrorFor offTaskName) := rfl
  have hrl : isRateLimitMsg (nameErrorFor offTaskName) = false := by decide
  constructor
  · intro hp1 hp2
    have hres : ai_analysis_v1 req kick =
        ({ status := 500
           body := Body.err (analysisFailedPre ++ nameErrorFor offTaskName) }, 1) := by
      rw [ai_analysis_v1, ai_analysis, hp1, hp2]
      simp [hbody1, handleAnalysisExc, hrl]
    exact ⟨hres, by rw [hres]; decide, hrl⟩
  · intro b hp1 hp2 hkick
    have hbody2 : aiAnalysisBodyV2 kick = Except.ok b := by
      rw [aiAnalysisBodyV2, hkick]
      rfl
    have hres2 : ai_analysis_v2 req kick = ({ status := 200, body := b }, 1) := by
      rw [ai_analysis_v2, ai_analysis, hp1, hp2]
      simp [hbody2]
    have hres1 : ai_analysis_v1 req kick =
        ({ status := 500
           body := Body.err (analysisFailedPre ++ nameErrorFor offTaskName) }, 1) := by
      rw [ai_analysis_v1, ai_analysis, hp1, hp2]
      simp [hbody1, handleAnalysisExc, hrl]
    refine ⟨hres2, ?_⟩
    rw [hres2, hres1]
    simp

def kickText : String := "collaborative betting analysis"
def crewText : String := "crew result"

/-- A kickoff stub that succeeds with a concrete payload. -/
def kickOk : Except String Body :=
  Except.ok (Body.analysisPayload kickText lebron celtics crewText)

/-- Witness for claim C10 at a concrete well-formed request: variant 1
answers 500 with the NameError message while variant 2 answers 200. -/
theorem ai_analysis_v1_always_500_witness :
    ai_analysis_v1 reqGood kickOk =
      ({ status := 500
         body := Body.err (analysisFailedPre ++ nameErrorFor offTaskName) }, 1)
    ∧ ai_analysis_v2 reqGood kickOk =
      ({ status := 200
         body := Body.analysisPayload kickText lebron celtics crewText }, 1) :=
  ⟨((ai_analysis_v1_always_500 reqGood kickOk).1 rfl rfl).1,
   ((ai_analysis_v1_always_500 reqGood kickOk).2
     (Body.analysisPayload kickText lebron celtics crewText) rfl rfl rfl).1⟩

end NBA
